import Mathlib

/-!
Verification of the moto DynamoDB typed-value model and expression tokenizer.

Shallow embedding of:
  * moto/dynamodb2/models/dynamo_type.py  (DDBType, DDBTypeConversion, DynamoType)
  * moto/dynamodb2/parsing/tokens.py      (Token, ExpressionTokenizer)

Python values held in `DynamoType.value` after construction are modeled by the
inductive `Dyn` below, one constructor per runtime shape of the payload.  The
`type` attribute of a `DynamoType` is the `tag` field of every constructor;
as in the source, the tag string is independent of the payload's shape.

Operations that would raise an exception in Python which is ancillary to the
behaviour being verified (for example calling `.items()` on a list payload)
are modeled as `none` / a dedicated error constructor.  Such places are marked
by comments.  Python `str` lengths are modeled by `String.length` (both count
unicode code points).
-/

namespace Moto

/-- Modelled from the spec: the scalar byte-size estimator `bytesize` lives in
moto/dynamodb2/models/utilities.py, which is not part of the sources at hand.
The spec describes it as the byte length of the raw text, so it is modeled as
the UTF-8 byte length of the string. -/
def bytesize (s : String) : Nat :=
  s.utf8ByteSize

/-! ## DDBType and DDBTypeConversion -/

/-- The upper-case class attributes of `DDBType`, in their source order
(identifier, tag code).  These are exactly the entries of `DDBType.__dict__`
whose key satisfies `key.upper() == key`. -/
def ddbTypeEntries : List (String × String) :=
  [("BINARY_SET", "BS"), ("NUMBER_SET", "NS"), ("STRING_SET", "SS"),
   ("STRING", "S"), ("NUMBER", "N"), ("MAP", "M"), ("LIST", "L"),
   ("BOOLEAN", "BOOL"), ("BINARY", "B"), ("NULL", "NULL")]

/-- Python `key.replace("_", " ")` for a single-character pattern: every
underscore becomes a space. -/
def replaceUnderscores (s : String) : String :=
  ⟨s.data.map (fun c => if c = '_' then ' ' else c)⟩

/-- `DDBTypeConversion._human_type_mapping`:
`{val: key.replace("_", " ") for key, val in DDBType.__dict__.items() if key.upper() == key}`. -/
def humanTypeMapping : List (String × String) :=
  ddbTypeEntries.map (fun kv => (kv.2, replaceUnderscores kv.1))

/-- `DDBTypeConversion.get_human_type`:
`return cls._human_type_mapping.get(abbreviated_type, abbreviated_type)`. -/
def get_human_type (abbreviated_type : String) : String :=
  ((humanTypeMapping.find? (fun kv => kv.1 == abbreviated_type)).map (fun kv => kv.2)).getD
    abbreviated_type

/-! ## The DynamoType value model -/

/-- A `DynamoType` object: the `type` attribute (tag) together with the
runtime shape of the `value` attribute.
  * `scalarS` — `value` is a Python `str`;
  * `scalarB` — `value` is a Python `bool`;
  * `setV`    — `value` is a Python list of `str` (the wire shape of SS/NS/BS);
  * `listV`   — `value` is a Python list of already-wrapped `DynamoType`s;
  * `mapV`    — `value` is a Python dict mapping `str` to wrapped `DynamoType`s
    (association list in insertion order, keys unique). -/
inductive Dyn where
  | scalarS (tag : String) (s : String)
  | scalarB (tag : String) (b : Bool)
  | setV    (tag : String) (xs : List String)
  | listV   (tag : String) (xs : List Dyn)
  | mapV    (tag : String) (entries : List (String × Dyn))
deriving Repr

/-- The `type` attribute. -/
def Dyn.tag : Dyn → String
  | .scalarS t _ => t
  | .scalarB t _ => t
  | .setV t _ => t
  | .listV t _ => t
  | .mapV t _ => t

/-- `DynamoType.is_number`: `self.type == DDBType.NUMBER`. -/
def Dyn.is_number (d : Dyn) : Bool := d.tag == "N"

/-- `DynamoType.is_set`: `self.type in (DDBType.STRING_SET, DDBType.NUMBER_SET,
DDBType.BINARY_SET)`. -/
def Dyn.is_set (d : Dyn) : Bool := d.tag == "SS" || d.tag == "NS" || d.tag == "BS"

/-- `DynamoType.is_list`. -/
def Dyn.is_list (d : Dyn) : Bool := d.tag == "L"

/-- `DynamoType.is_map`. -/
def Dyn.is_map (d : Dyn) : Bool := d.tag == "M"

mutual

/-- `DynamoType.__init__` applied to an existing `DynamoType` (the copy
branch): the tag and value are taken over and then, when the tag is L or M,
every child is re-wrapped through `DynamoType(...)` again, i.e. deep-copied.
`none` models the `AttributeError`/`TypeError` Python raises when an L/M tag
sits on a payload that is not a list/dict of wrapped values (degenerate empty
payloads, which Python would let through unchanged, are not modeled). -/
def copyD : Dyn → Option Dyn
  | .scalarS t s =>
    if t = "L" ∨ t = "M" then none else some (.scalarS t s)
  | .scalarB t b =>
    if t = "L" ∨ t = "M" then none else some (.scalarB t b)
  | .setV t xs =>
    if t = "L" ∨ t = "M" then none else some (.setV t xs)
  | .listV t xs =>
    if t = "L" then (copyL xs).map (.listV t)
    else if t = "M" then none
    else some (.listV t xs)
  | .mapV t xs =>
    if t = "L" then none
    else if t = "M" then (copyE xs).map (.mapV t)
    else some (.mapV t xs)

/-- `[DynamoType(val) for val in self.value]` over a list payload. -/
def copyL : List Dyn → Option (List Dyn)
  | [] => some []
  | d :: ds => do pure ((← copyD d) :: (← copyL ds))

/-- `{k: DynamoType(v) for k, v in self.value.items()}` over a dict payload. -/
def copyE : List (String × Dyn) → Option (List (String × Dyn))
  | [] => some []
  | (k, d) :: ds => do pure ((k, (← copyD d)) :: (← copyE ds))

end

/-- A value is well-formed when re-constructing it through `DynamoType(...)`
does not raise, i.e. every L-tagged node holds a list payload and every
M-tagged node holds a dict payload.  Every value that a successful
`DynamoType.__init__` can produce satisfies this. -/
def Dyn.wf (d : Dyn) : Bool := (copyD d).isSome

mutual

theorem copyD_some_eq : ∀ d w, copyD d = some w → w = d
  | .scalarS t s, w, h => by
    unfold copyD at h
    split at h
    · exact absurd h (by simp)
    · simpa using h.symm
  | .scalarB t b, w, h => by
    unfold copyD at h
    split at h
    · exact absurd h (by simp)
    · simpa using h.symm
  | .setV t xs, w, h => by
    unfold copyD at h
    split at h
    · exact absurd h (by simp)
    · simpa using h.symm
  | .listV t xs, w, h => by
    unfold copyD at h
    split at h
    · match hys : copyL xs with
      | some ys =>
        rw [hys] at h
        simp at h
        subst h
        rw [copyL_some_eq xs ys hys]
      | none => rw [hys] at h; simp at h
    · split at h
      · exact absurd h (by simp)
      · simpa using h.symm
  | .mapV t xs, w, h => by
    unfold copyD at h
    split at h
    · exact absurd h (by simp)
    · split at h
      · match hys : copyE xs with
        | some ys =>
          rw [hys] at h
          simp at h
          subst h
          rw [copyE_some_eq xs ys hys]
        | none => rw [hys] at h; simp at h
      · simpa using h.symm

theorem copyL_some_eq : ∀ xs ys, copyL xs = some ys → ys = xs
  | [], ys, h => by simpa [copyL] using h.symm
  | d :: ds, ys, h => by
    unfold copyL at h
    match hd : copyD d, hds : copyL ds with
    | some w, some ws =>
      rw [hd, hds] at h
      simp at h
      subst h
      rw [copyD_some_eq d w hd, copyL_some_eq ds ws hds]
    | some w, none => rw [hd, hds] at h; simp at h
    | none, _ => rw [hd] at h; simp at h

theorem copyE_some_eq : ∀ xs ys, copyE xs = some ys → ys = xs
  | [], ys, h => by simpa [copyE] using h.symm
  | (k, d) :: ds, ys, h => by
    unfold copyE at h
    match hd : copyD d, hds : copyE ds with
    | some w, some ws =>
      rw [hd, hds] at h
      simp at h
      subst h
      rw [copyD_some_eq d w hd, copyE_some_eq ds ws hds]
    | some w, none => rw [hd, hds] at h; simp at h
    | none, _ => rw [hd] at h; simp at h

end

theorem copyD_of_wf (d : Dyn) (h : d.wf = true) : copyD d = some d := by
  unfold Dyn.wf at h
  match hc : copyD d with
  | some w => rw [copyD_some_eq d w hc]
  | none => rw [hc] at h; simp at h

/-! ## Serialization (`to_json`) and deserialization (`__init__` on a dict) -/

/-- The payload of the Python single-key dict `{self.type: self.value}`
returned by `DynamoType.to_json`.  Note that `to_json` does not unwrap nested
values: an L/M node's payload still holds wrapped `DynamoType` children. -/
inductive PyValue where
  | str  (s : String)
  | bool (b : Bool)
  | strs (xs : List String)
  | dyns (xs : List Dyn)
  | dict (xs : List (String × Dyn))
deriving Repr

/-- `DynamoType.to_json`: `return {self.type: self.value}`. -/
def Dyn.to_json : Dyn → String × PyValue
  | .scalarS t s => (t, .str s)
  | .scalarB t b => (t, .bool b)
  | .setV t xs => (t, .strs xs)
  | .listV t xs => (t, .dyns xs)
  | .mapV t xs => (t, .dict xs)

/-- `DynamoType.__init__` applied to a single-key dict `{tag: value}`:
`self.type` and `self.value` are taken from the dict and then the children of
an L/M-tagged value are wrapped through `DynamoType(...)` (a deep copy when
they already are `DynamoType`s).  `none` models the exceptions raised when an
L tag sits on something that is not a list of wrappable values, or an M tag
on something with no `.items()` (degenerate empty payloads not modeled). -/
def dynamoTypeOfDict : String × PyValue → Option Dyn
  | (t, v) =>
    if t = "L" then
      match v with
      | .dyns xs => (copyL xs).map (.listV t)
      | _ => none
    else if t = "M" then
      match v with
      | .dict xs => (copyE xs).map (.mapV t)
      | _ => none
    else
      match v with
      | .str s => some (.scalarS t s)
      | .bool b => some (.scalarB t b)
      | .strs xs => some (.setV t xs)
      | .dyns xs => some (.listV t xs)
      | .dict xs => some (.mapV t xs)

/-! ## Size accounting (`DynamoType.size`) -/

/-- Python `str(bool)`. -/
def pyStrOfBool (b : Bool) : String := if b then "True" else "False"

/-- Size of `DynamoType({sub_type: v}).size()` for a single-character tag
`sub_type` and a string `v` — the wrapping used for set members.  For tag N
the size is the text length; tags L and M crash during construction when the
string is non-empty (`none`, the empty degenerate case is not modeled); any
other tag falls through to `bytesize`. -/
def wrappedScalarSize (sub : String) (v : String) : Option Nat :=
  if sub = "N" then some v.length
  else if sub = "L" ∨ sub = "M" then none
  else some (bytesize v)

mutual

/-- `DynamoType.size`, branch for branch.  `none` models the places where
Python raises (for example `bytesize` of a non-string payload, or iterating a
bool), and the degenerate repr-based branches that are left out of the model
(`len(str(value))` of a container payload under an N tag). -/
def sizeD : Dyn → Option Nat
  | .scalarS t s =>
    if t = "N" then some s.length
    else if t = "SS" ∨ t = "NS" ∨ t = "BS" then
      -- iterating a str payload yields its characters, each wrapped at type[0]
      (s.data.mapM (fun c => wrappedScalarSize (t.take 1) (String.singleton c))).map List.sum
    else if t = "L" then none
    else if t = "M" then none
    else some (bytesize s)
  | .scalarB t b =>
    if t = "N" then some (pyStrOfBool b).length
    else if t = "SS" ∨ t = "NS" ∨ t = "BS" then none
    else if t = "L" then none
    else if t = "M" then none
    else some 1
  | .setV t xs =>
    if t = "N" then none
    else if t = "SS" ∨ t = "NS" ∨ t = "BS" then
      -- sum(DynamoType({sub_type: v}).size() for v in self.value)
      (xs.mapM (fun v => wrappedScalarSize (t.take 1) v)).map List.sum
    else if t = "L" then none
    else if t = "M" then none
    else none
  | .listV t xs =>
    if t = "N" then none
    else if t = "SS" ∨ t = "NS" ∨ t = "BS" then none
    else if t = "L" then (sizeL xs).map List.sum
    else if t = "M" then none
    else none
  | .mapV t xs =>
    if t = "N" then none
    else if t = "SS" ∨ t = "NS" ∨ t = "BS" then
      -- iterating a dict payload yields its keys
      (xs.mapM (fun kv => wrappedScalarSize (t.take 1) kv.1)).map List.sum
    else if t = "L" then none
    else if t = "M" then (sizeE xs).map List.sum
    else none

/-- `sum(v.size() for v in self.value)` over a list payload. -/
def sizeL : List Dyn → Option (List Nat)
  | [] => some []
  | d :: ds => do pure ((← sizeD d) :: (← sizeL ds))

/-- `sum(bytesize(k) + DynamoType(v).size() for k, v in self.value.items())`.
The source wraps each child through `DynamoType(v)` before taking its size;
`copyD_some_eq` shows the copy equals `v` whenever it is defined, so after
checking that the copy is defined the recursion proceeds on `v` itself, which
keeps it structural. -/
def sizeE : List (String × Dyn) → Option (List Nat)
  | [] => some []
  | (k, v) :: ds => do
    let _ ← copyD v
    let s ← sizeD v
    let rest ← sizeE ds
    pure ((bytesize k + s) :: rest)

end

/-! ## Arithmetic (`__add__`, `__sub__`) -/

/-- The errors the arithmetic operators raise.  `typeError` is Python's
`TypeError`, which the spec's taxonomy calls *TypeMismatch*; the moto
exception `IncorrectDataType` has its own constructor. -/
inductive PyArithError where
  | typeError (msg : String)
  | incorrectDataType
deriving Repr, DecidableEq

/-- Python `int(s)` on a stripped decimal literal: optional sign followed by
one or more ASCII digits (`none` for the `ValueError` cases; underscore
grouping and surrounding whitespace, which Python would also accept, are not
modeled). -/
def pyInt (s : String) : Option Int :=
  let digits := fun (ds : List Char) =>
    if ds ≠ [] ∧ ds.all Char.isDigit then
      some ((ds.foldl (fun acc c => acc * 10 + (c.toNat - 48)) 0 : Nat) : Int)
    else none
  match s.data with
  | '-' :: ds => (digits ds).map (fun n => -n)
  | '+' :: ds => digits ds
  | ds => digits ds

/-- The shared numeric tail of `__add__`/`__sub__`:
`self_value = float(self.value) if "." in self.value else int(self.value)` and
symmetrically for the other operand, then
`DynamoType({DDBType.NUMBER: "{v}".format(v=self_value OP other_value)})`.
Only the integer path is modeled: `none` covers the floating-point branch
(taken when either text contains a `.`) as well as the exceptions raised on
non-string payloads or texts `int()` rejects. -/
def numericOpResult (a b : Dyn) (f : Int → Int → Int) : Option Dyn :=
  match a, b with
  | .scalarS _ s1, .scalarS _ s2 =>
    if s1.data.contains '.' ∨ s2.data.contains '.' then none
    else do
      let x ← pyInt s1
      let y ← pyInt s2
      pure (.scalarS "N" (toString (f x y)))
  | _, _ => none

/-- `DynamoType.__add__`. -/
def Dyn.add (a b : Dyn) : Except PyArithError (Option Dyn) :=
  if a.tag ≠ b.tag then .error (.typeError "Different types of operandi is not allowed.")
  else if ¬ (a.is_number = true) then .error .incorrectDataType
  else .ok (numericOpResult a b (fun x y => x + y))

/-- `DynamoType.__sub__`. -/
def Dyn.sub (a b : Dyn) : Except PyArithError (Option Dyn) :=
  if a.tag ≠ b.tag then .error (.typeError "Different types of operandi is not allowed.")
  else if a.tag ≠ "N" then .error (.typeError "Sum only supported for Numbers.")
  else .ok (numericOpResult a b (fun x y => x - y))

/-! ## Indexed mutation (`__setitem__`) -/

/-- The runtime type of the key passed to `__setitem__`: `int`, `str`, or
anything else (Python `bool` keys, being `int` subclasses, take the `int`
branch and are not modeled separately). -/
inductive SetKey where
  | int (i : Int)
  | str (s : String)
  | other
deriving Repr, DecidableEq

/-- Errors of `__setitem__`: `notImplementedKey` is the
`NotImplementedError("No set_item for ...")` raised for unsupported key
types; `indexError` is Python's `IndexError` from a negative list index out
of range; `pyCrash` stands for the exceptions raised when an L/M tag sits on
a payload without `append`/item assignment (degenerate cases). -/
inductive SetItemError where
  | notImplementedKey
  | indexError
  | pyCrash
deriving Repr, DecidableEq

/-- Python dict assignment `d[k] = v` on an association list: overwrite in
place when the key exists, append otherwise. -/
def dictSet : List (String × Dyn) → String → Dyn → List (String × Dyn)
  | [], k, v => [(k, v)]
  | (k0, v0) :: rest, k, v =>
    if k0 = k then (k0, v) :: rest else (k0, v0) :: dictSet rest k v

/-- `DynamoType.__setitem__`.  For an `int` key on a list payload,
`self.value[key] = value` follows Python list-assignment semantics: indices
`key >= len` were already routed to `append`, `0 <= key < len` overwrites,
`-len <= key < 0` overwrites position `len + key`, and `key < -len` raises
`IndexError`. -/
def Dyn.setItem (d : Dyn) (key : SetKey) (v : Dyn) : Except SetItemError Dyn :=
  match key with
  | .int i =>
    if d.is_list = true then
      match d with
      | .listV t xs =>
        if i ≥ (xs.length : Int) then .ok (.listV t (xs ++ [v]))
        else if 0 ≤ i then .ok (.listV t (xs.set i.toNat v))
        else if -(xs.length : Int) ≤ i then
          .ok (.listV t (xs.set ((xs.length : Int) + i).toNat v))
        else .error .indexError
      | _ => .error .pyCrash
    else .ok d
  | .str s =>
    if d.is_map = true then
      match d with
      | .mapV t xs => .ok (.mapV t (dictSet xs s v))
      | _ => .error .pyCrash
    else .ok d
  | .other => .error .notImplementedKey

/-! ## Projection filtering (`DynamoType.filter`) -/

/-- Leading-match test on character lists (first argument: the pattern). -/
def charsLead : List Char → List Char → Bool
  | [], _ => true
  | _ :: _, [] => false
  | p :: ps, c :: cs => p = c && charsLead ps cs

/-- Python `s.startswith(pat)`. -/
def pyStartsWith (s pat : String) : Bool := charsLead pat.data s.data

/-- `expr[: expr.index(".")]` — the portion before the first dot (the source
only evaluates this when the expression contains a dot). -/
def beforeFirstDot (e : String) : String := ⟨e.data.takeWhile (fun c => c ≠ '.')⟩

/-- The tail paths handed to the recursive call:
`[expr[len(attr + ".") :] for expr in projection_expressions if
expr.startswith(attr + ".")]`. -/
def relevantExpressions (proj : List String) (attr : String) : List String :=
  (proj.filter (fun e => pyStartsWith e (attr ++ "."))).map (fun e => e.drop (attr.length + 1))

mutual

/-- `DynamoType.filter`.  Only a map-tagged value is touched; the mark-then-
delete two-pass of the source is equivalent, on an insertion-ordered dict, to
the single order-preserving pass below.  `none` models the exceptions raised
when an M tag sits on a non-dict payload and the filter would have to touch
it (the degenerate no-op subcases of that shape are not modeled). -/
def filterD : Dyn → List String → Option Dyn
  | .mapV t xs, proj =>
    if t = "M" then
      let nested := (proj.filter (fun e => e.data.contains '.')).map beforeFirstDot
      (filterEntries xs proj nested).map (.mapV t)
    else some (.mapV t xs)
  | .scalarS t s, _ => if t = "M" then none else some (.scalarS t s)
  | .scalarB t b, _ => if t = "M" then none else some (.scalarB t b)
  | .setV t xs, _ => if t = "M" then none else some (.setV t xs)
  | .listV t xs, _ => if t = "M" then none else some (.listV t xs)

/-- The body of `for attr in self.value` followed by the deletion pass:
an entry is dropped when its key is in neither `projection_expressions` nor
`nested_projections`; an entry whose key is a nested projection is filtered
recursively with the relevant tail expressions; all other entries survive
unchanged. -/
def filterEntries :
    List (String × Dyn) → List String → List String → Option (List (String × Dyn))
  | [], _, _ => some []
  | (k, v) :: rest, proj, nested =>
    if k ∉ proj ∧ k ∉ nested then
      filterEntries rest proj nested
    else if k ∈ nested then do
      let v2 ← filterD v (relevantExpressions proj k)
      let rest2 ← filterEntries rest proj nested
      pure ((k, v2) :: rest2)
    else do
      let rest2 ← filterEntries rest proj nested
      pure ((k, v) :: rest2)

end

mutual

/-- Modelled from the spec's words (§4.1 `filter`): an in-place structural
projection applicable only when the tag is Map.  The *nested roots* are the
portions before the first `.` of every dotted expression; a top-level key is
kept exactly when it appears verbatim in the expression list or is a nested
root, and a nested root's child is recursively filtered with the tail paths
(the `key.`-stripped suffixes) of every expression sharing that prefix. -/
def specFilter : Dyn → List String → Dyn
  | .mapV t xs, proj =>
    if t = "M" then .mapV t (specFilterEntries xs proj) else .mapV t xs
  | .scalarS t s, _ => .scalarS t s
  | .scalarB t b, _ => .scalarB t b
  | .setV t xs, _ => .setV t xs
  | .listV t xs, _ => .listV t xs

/-- Spec-side entry processing: keep keys that are listed verbatim or are
nested roots, recursing into nested roots. -/
def specFilterEntries : List (String × Dyn) → List String → List (String × Dyn)
  | [], _ => []
  | (k, v) :: rest, proj =>
    let nestedRoots := (proj.filter (fun e => e.data.contains '.')).map beforeFirstDot
    if k ∈ nestedRoots then
      (k, specFilter v (relevantExpressions proj k)) :: specFilterEntries rest proj
    else if k ∈ proj then
      (k, v) :: specFilterEntries rest proj
    else
      specFilterEntries rest proj

end

mutual

/-- Well-formedness for `filter`: no reachable node pairs an M tag with a
non-dict payload, so the recursive filtering never hits a modeled crash. -/
def wfFilter : Dyn → Bool
  | .mapV _ xs => wfFilterE xs
  | .scalarS t _ => decide (t ≠ "M")
  | .scalarB t _ => decide (t ≠ "M")
  | .setV t _ => decide (t ≠ "M")
  | .listV t _ => decide (t ≠ "M")

def wfFilterE : List (String × Dyn) → Bool
  | [] => true
  | (_, v) :: rest => wfFilter v && wfFilterE rest

end

/-! ## Expression tokenizer (moto/dynamodb2/parsing/tokens.py) -/

/-- Token kinds: the five placeholder kinds `Token.ATTRIBUTE` ..
`Token.NUMBER`, plus the literal single-character kinds used for the members
of `Token.SPECIAL_CHARACTERS` (whose token type is the character itself). -/
inductive TokType where
  | attribute
  | attributeName
  | attributeValue
  | whitespace
  | number
  | special (c : Char)
deriving Repr, DecidableEq

/-- A `Token`: a (type, value) pair. -/
structure Token where
  type : TokType
  value : String
deriving Repr, DecidableEq

/-- Tokenizer failures.  `invalidTokenException` carries the offending
character and the near-context, exactly the two arguments of
`InvalidTokenException`; `invalidExpressionAttributeNameKey` carries the
malformed key; `notImplementedCharacter` is the unreachable
`NotImplementedError` branch of `_make_list`. -/
inductive TokErr where
  | invalidTokenException (problematic : Char) (near : String)
  | invalidExpressionAttributeNameKey (key : String)
  | notImplementedCharacter (c : Char)
deriving Repr, DecidableEq

/-- `Token.SPECIAL_CHARACTERS` in source order (the space appears twice in
the source, as `SPACE_SIGN` and `SPACE`). -/
def specialCharacters : List Char :=
  ['-', '+', ' ', '=', '(', ')', ',', ' ', '.', '[', ']']

/-- `ExpressionTokenizer.is_simple_token_character`:
`character.isalnum() or character in ("_", ":", "#")`.  Python `isalnum` is
unicode-aware; the ASCII fragment is modeled (`Char.isAlphanum`). -/
def is_simple_token_character (c : Char) : Bool :=
  c.isAlphanum || c = '_' || c = ':' || c = '#'

/-- `ExpressionTokenizer.is_possible_token_boundary`. -/
def is_possible_token_boundary (c : Char) : Bool :=
  c ∈ specialCharacters || !(is_simple_token_character c)

/-- An ASCII letter or digit, the character class `[a-zA-Z0-9]`. -/
def isAsciiAlnum (c : Char) : Bool := c.isAlpha || c.isDigit

/-- `ExpressionTokenizer.is_expression_attribute`: the anchored regex
`^[a-zA-Z0-9][a-zA-Z0-9_]*$`. -/
def is_expression_attribute (s : String) : Bool :=
  match s.data with
  | [] => false
  | c :: rest => isAsciiAlnum c && rest.all (fun x => isAsciiAlnum x || x = '_')

/-- `ExpressionTokenizer.is_expression_attribute_name`:
`input_string.startswith("#") and cls.is_expression_attribute(input_string[1:])`. -/
def is_expression_attribute_name (s : String) : Bool :=
  pyStartsWith s "#" && is_expression_attribute (s.drop 1)

/-- `ExpressionTokenizer.is_expression_attribute_value`: the anchored regex
`^:[a-zA-Z0-9_]*$`. -/
def is_expression_attribute_value (s : String) : Bool :=
  match s.data with
  | ':' :: rest => rest.all (fun x => isAsciiAlnum x || x = '_')
  | _ => false

/-- `ExpressionTokenizer.is_numeric`: `re.compile("[0-9]+").match(input_str)`
— `re.match` anchors at the start only (there is no end anchor), so this
holds exactly when the string begins with an ASCII decimal digit. -/
def is_numeric (s : String) : Bool :=
  match s.data with
  | c :: _ => c.isDigit
  | [] => false

/-- The tokenizer's mutable state: `self.token_list` and
`self.staged_characters`. -/
structure TokState where
  token_list : List Token
  staged_characters : String
deriving Repr, DecidableEq

/-- `ExpressionTokenizer.add_token_from_stage`. -/
def addTokenFromStage (st : TokState) (tt : TokType) : TokState :=
  { token_list := st.token_list ++ [⟨tt, st.staged_characters⟩], staged_characters := "" }

/-- `ExpressionTokenizer.raise_unexpected_token`: computes the near-context
from the last one or two tokens and raises `InvalidTokenException` citing the
first staged character. -/
def raiseUnexpectedToken (st : TokState) : Except TokErr TokState :=
  let near :=
    match st.token_list.reverse with
    | [] => ""
    | [t] => t.value
    | t1 :: t2 :: _ => if t1.type = .whitespace then t2.value ++ t1.value else t1.value
  .error (.invalidTokenException st.staged_characters.front (near ++ st.staged_characters))

/-- `ExpressionTokenizer.process_staged_characters`, branch for branch. -/
def process_staged_characters (st : TokState) : Except TokErr TokState :=
  if st.staged_characters.length = 0 then .ok st
  else if pyStartsWith st.staged_characters "#" then
    if is_expression_attribute_name st.staged_characters then
      .ok (addTokenFromStage st .attributeName)
    else .error (.invalidExpressionAttributeNameKey st.staged_characters)
  else if is_numeric st.staged_characters then .ok (addTokenFromStage st .number)
  else if is_expression_attribute st.staged_characters then
    .ok (addTokenFromStage st .attribute)
  else if is_expression_attribute_value st.staged_characters then
    .ok (addTokenFromStage st .attributeValue)
  else raiseUnexpectedToken st

/-- The space branch of `_make_list`: a space is appended to the previous
token when that token is a whitespace token, else starts a new one. -/
def handleSpace (st : TokState) : TokState :=
  match st.token_list.reverse with
  | last :: _ =>
    if last.type = .whitespace then
      { st with token_list := st.token_list.dropLast ++ [⟨.whitespace, last.value ++ " "⟩] }
    else { st with token_list := st.token_list ++ [⟨.whitespace, " "⟩] }
  | [] => { st with token_list := st.token_list ++ [⟨.whitespace, " "⟩] }

/-- One iteration of the character loop of `_make_list`. -/
def tokStep (st : TokState) (c : Char) : Except TokErr TokState :=
  if !(is_possible_token_boundary c) then
    .ok { st with staged_characters := st.staged_characters.push c }
  else do
    let st1 ← process_staged_characters st
    if c = ' ' then pure (handleSpace st1)
    else if c ∈ specialCharacters then
      pure { st1 with token_list := st1.token_list ++ [⟨.special c, String.singleton c⟩] }
    else if !(is_simple_token_character c) then
      raiseUnexpectedToken { st1 with staged_characters := st1.staged_characters.push c }
    else .error (.notImplementedCharacter c)

/-- `ExpressionTokenizer.make_list`: run the loop over all input characters,
then finalize the remaining staged characters. -/
def make_list (input : String) : Except TokErr (List Token) := do
  let st ← input.data.foldlM tokStep ⟨[], ""⟩
  let st2 ← process_staged_characters st
  pure st2.token_list

/-! ## Claim theorems -/

/-- **C9** (counterexample): the claim says `get_human_type` returns the
lower-case space-separated form of the identifier, e.g. `"string set"` for
the STRING_SET code `"SS"`.  The source only replaces underscores by spaces
and never lower-cases: looking up `"SS"` yields `"STRING SET"`. -/
theorem C9_human_type_counterexample :
    get_human_type "SS" = "STRING SET" ∧ "STRING SET" ≠ "string set" :=
  ⟨rfl, by decide⟩

/-- **C9** (amended): for every known tag code the diagnostic lookup returns
the space-separated (upper-case, as in the identifier) form of its
identifier, and every unknown code is returned unchanged without an error. -/
theorem C9_human_type_amended :
    get_human_type "BS" = "BINARY SET" ∧ get_human_type "NS" = "NUMBER SET" ∧
    get_human_type "SS" = "STRING SET" ∧ get_human_type "S" = "STRING" ∧
    get_human_type "N" = "NUMBER" ∧ get_human_type "M" = "MAP" ∧
    get_human_type "L" = "LIST" ∧ get_human_type "BOOL" = "BOOLEAN" ∧
    get_human_type "B" = "BINARY" ∧ get_human_type "NULL" = "NULL" ∧
    ∀ code, code ∉ humanTypeMapping.map Prod.fst → get_human_type code = code := by
  refine ⟨rfl, rfl, rfl, rfl, rfl, rfl, rfl, rfl, rfl, rfl, ?_⟩
  intro code h
  have hnone : humanTypeMapping.find? (fun kv => kv.1 == code) = none := by
    rw [List.find?_eq_none]
    intro kv hkv hp
    simp only [beq_iff_eq] at hp
    exact h (hp ▸ List.mem_map_of_mem Prod.fst hkv)
  simp [get_human_type, hnone]

/-- **C9** (witness): the amended theorem applied to the unknown code
`"GREEK"`. -/
theorem C9_human_type_witness :
    "GREEK" ∉ humanTypeMapping.map Prod.fst ∧ get_human_type "GREEK" = "GREEK" :=
  ⟨by decide, C9_human_type_amended.2.2.2.2.2.2.2.2.2.2 "GREEK" (by decide)⟩

/-- **C5** (counterexample): the claim says tokenizing `"#1abc"` fails with
*InvalidExpressionAttributeNameKey* because a `#`-buffer whose remainder
begins with a digit does not satisfy the acceptance check.  In the source the
acceptance regex `^[a-zA-Z0-9][a-zA-Z0-9_]*$` allows a leading digit, so
`"#1abc"` is accepted and tokenizes into a single AttributeName token. -/
theorem C5_hash_token_counterexample :
    make_list "#1abc" = .ok [⟨.attributeName, "#1abc"⟩]
    ∧ is_expression_attribute_name "#1abc" = true :=
  ⟨rfl, rfl⟩

/-- **C5** (amended): tokenizing `"#1abc"` emits a single
AttributeNamePlaceholder token (a remainder beginning with a digit satisfies
the acceptance check); a staged `#`-buffer fails with
*InvalidExpressionAttributeNameKey* exactly when the acceptance check
`is_expression_attribute_name` rejects it, e.g. for `"#"` or `"#a:b"`. -/
theorem C5_hash_token_amended :
    make_list "#1abc" = .ok [⟨.attributeName, "#1abc"⟩]
    ∧ make_list "#" = .error (.invalidExpressionAttributeNameKey "#")
    ∧ make_list "#a:b" = .error (.invalidExpressionAttributeNameKey "#a:b")
    ∧ ∀ ts s, pyStartsWith s "#" = true →
        process_staged_characters ⟨ts, s⟩ =
          if is_expression_attribute_name s then .ok (addTokenFromStage ⟨ts, s⟩ .attributeName)
          else .error (.invalidExpressionAttributeNameKey s) := by
  refine ⟨rfl, rfl, rfl, ?_⟩
  intro ts s h
  have hne : ¬ (String.length s = 0) := by
    intro h0
    have hdata : s.data = [] := List.length_eq_zero.mp h0
    rw [pyStartsWith, hdata] at h
    simp [charsLead] at h
  simp only [process_staged_characters]
  rw [if_neg hne, if_pos h]

/-- **C5** (witness): the amended theorem applied to the staged buffer
`"#q1"`. -/
theorem C5_hash_token_witness :
    process_staged_characters ⟨[], "#q1"⟩ = .ok ⟨[⟨.attributeName, "#q1"⟩], ""⟩ := by
  rw [C5_hash_token_amended.2.2.2 [] "#q1" rfl]
  rfl

/-- **C4**: the two arithmetic error paths are distinct: `__add__` on
operands with different tags fails with the cross-tag `TypeError` (the
spec's *TypeMismatch*); `__add__` on equal non-Number tags fails with
`IncorrectDataType`; `__sub__` on equal non-Number tags fails with a
`TypeError` (*TypeMismatch*) and never with `IncorrectDataType`. -/
theorem C4_arith_error_paths (a b : Dyn) :
    (a.tag ≠ b.tag →
      a.add b = .error (.typeError "Different types of operandi is not allowed."))
    ∧ (a.tag = b.tag → a.tag ≠ "N" → a.add b = .error .incorrectDataType)
    ∧ (a.tag = b.tag → a.tag ≠ "N" →
        a.sub b = .error (.typeError "Sum only supported for Numbers.")
        ∧ a.sub b ≠ .error .incorrectDataType) := by
  refine ⟨?_, ?_, ?_⟩
  · intro h
    unfold Dyn.add
    rw [if_pos h]
  · intro he hn
    unfold Dyn.add
    rw [if_neg (by simp [he]), if_pos (by simp [Dyn.is_number, hn])]
  · intro he hn
    unfold Dyn.sub
    rw [if_neg (by simp [he]), if_pos hn]
    exact ⟨rfl, by simp⟩

/-- **C4** (witness): Number+String fails with the cross-tag `TypeError`
(*TypeMismatch*), String+String with `IncorrectDataType`, and
String−String with the numeric-only `TypeError`, not `IncorrectDataType`. -/
theorem C4_arith_error_paths_witness :
    Dyn.add (.scalarS "N" "1") (.scalarS "S" "x") =
      .error (.typeError "Different types of operandi is not allowed.")
    ∧ Dyn.add (.scalarS "S" "a") (.scalarS "S" "b") = .error .incorrectDataType
    ∧ Dyn.sub (.scalarS "S" "a") (.scalarS "S" "b") =
      .error (.typeError "Sum only supported for Numbers.") :=
  ⟨(C4_arith_error_paths _ _).1 (by decide),
   (C4_arith_error_paths _ _).2.1 rfl (by decide),
   ((C4_arith_error_paths _ _).2.2 rfl (by decide)).1⟩

/-- **C8**: on the integer path (neither operand's text contains a decimal
point — Python would otherwise parse floats, which are outside this model),
`__add__`/`__sub__` on two Number-tagged values parse the texts as integers
and return a Number-tagged value whose text is the decimal serialization of
the sum/difference. -/
theorem C8_numeric_arithmetic (s1 s2 : String) (x y : Int)
    (h1 : s1.data.contains '.' = false) (h2 : s2.data.contains '.' = false)
    (hx : pyInt s1 = some x) (hy : pyInt s2 = some y) :
    Dyn.add (.scalarS "N" s1) (.scalarS "N" s2) =
      .ok (some (.scalarS "N" (toString (x + y))))
    ∧ Dyn.sub (.scalarS "N" s1) (.scalarS "N" s2) =
      .ok (some (.scalarS "N" (toString (x - y)))) := by
  constructor
  · unfold Dyn.add
    rw [if_neg (by simp [Dyn.tag]), if_neg (by simp [Dyn.is_number, Dyn.tag])]
    simp only [numericOpResult]
    rw [if_neg (by simp; exact ⟨by simpa using h1, by simpa using h2⟩)]
    simp [hx, hy]
  · unfold Dyn.sub
    rw [if_neg (by simp [Dyn.tag]), if_neg (by simp [Dyn.tag])]
    simp only [numericOpResult]
    rw [if_neg (by simp; exact ⟨by simpa using h1, by simpa using h2⟩)]
    simp [hx, hy]

/-- **C8** (witness): Number("3")+Number("4") = Number("7") and
Number("3")−Number("1") = Number("2"). -/
theorem C8_numeric_arithmetic_witness :
    Dyn.add (.scalarS "N" "3") (.scalarS "N" "4") = .ok (some (.scalarS "N" "7"))
    ∧ Dyn.sub (.scalarS "N" "3") (.scalarS "N" "1") = .ok (some (.scalarS "N" "2")) :=
  ⟨(C8_numeric_arithmetic "3" "4" 3 4 rfl rfl rfl rfl).1,
   (C8_numeric_arithmetic "3" "1" 3 1 rfl rfl rfl rfl).2⟩

/-- **C7** (counterexample): the claim says that for *every* integer index
`i < n`, indexed mutation overwrites the element at position `i` in place.
For the negative index `i = -2` on a one-element list the source executes
`self.value[-2] = value`, which raises `IndexError` instead of overwriting. -/
theorem C7_list_setitem_counterexample :
    Dyn.setItem (.listV "L" [.scalarS "S" "x"]) (.int (-2)) (.scalarS "S" "y") =
      .error .indexError := rfl

/-- **C7** (amended): on a List-tagged value of length `n`, indexed mutation
with `0 ≤ i < n` overwrites position `i` in place, mutation with `i ≥ n`
appends and never raises, and negative indices follow Python list-assignment
semantics: `-n ≤ i < 0` overwrites position `n + i`, while `i < -n` raises
`IndexError`. -/
theorem C7_list_setitem_amended (xs : List Dyn) (v : Dyn) (i : Int) :
    (0 ≤ i → i < (xs.length : Int) →
      Dyn.setItem (.listV "L" xs) (.int i) v = .ok (.listV "L" (xs.set i.toNat v)))
    ∧ ((xs.length : Int) ≤ i →
      Dyn.setItem (.listV "L" xs) (.int i) v = .ok (.listV "L" (xs ++ [v])))
    ∧ (∀ e, (xs.length : Int) ≤ i → Dyn.setItem (.listV "L" xs) (.int i) v ≠ .error e)
    ∧ (-(xs.length : Int) ≤ i → i < 0 →
      Dyn.setItem (.listV "L" xs) (.int i) v =
        .ok (.listV "L" (xs.set ((xs.length : Int) + i).toNat v)))
    ∧ (i < -(xs.length : Int) →
      Dyn.setItem (.listV "L" xs) (.int i) v = .error .indexError) := by
  have hL : Dyn.is_list (.listV "L" xs) = true := rfl
  refine ⟨?_, ?_, ?_, ?_, ?_⟩
  · intro h0 hlt
    simp only [Dyn.setItem, hL, if_true]
    rw [if_neg (by omega), if_pos h0]
  · intro h
    simp only [Dyn.setItem, hL, if_true]
    rw [if_pos h]
  · intro e h
    simp only [Dyn.setItem, hL, if_true]
    rw [if_pos h]
    simp
  · intro hge hlt
    simp only [Dyn.setItem, hL, if_true]
    rw [if_neg (by omega), if_neg (by omega), if_pos hge]
  · intro h
    have hn : (0 : Int) ≤ xs.length := by positivity
    simp only [Dyn.setItem, hL, if_true]
    rw [if_neg (by omega), if_neg (by omega), if_neg (by omega)]

/-- **C7** (witness): overwrite at index 0 of a two-element list, append at
index 1 == length, and no error at index 5 ≥ length. -/
theorem C7_list_setitem_witness :
    Dyn.setItem (.listV "L" [.scalarS "S" "x", .scalarS "S" "z"]) (.int 0) (.scalarS "S" "y") =
      .ok (.listV "L" [.scalarS "S" "y", .scalarS "S" "z"])
    ∧ Dyn.setItem (.listV "L" [.scalarS "S" "x"]) (.int 1) (.scalarS "S" "y") =
      .ok (.listV "L" [.scalarS "S" "x", .scalarS "S" "y"])
    ∧ Dyn.setItem (.listV "L" [.scalarS "S" "x"]) (.int 5) (.scalarS "S" "y") ≠
      .error .indexError :=
  ⟨(C7_list_setitem_amended _ _ _).1 (by decide) (by decide),
   (C7_list_setitem_amended _ _ _).2.1 (by decide),
   (C7_list_setitem_amended _ _ _).2.2.1 .indexError (by decide)⟩

/-- **C10**: `__setitem__` raises its unsupported-key `NotImplementedError`
exactly when the key is neither an `int` nor a `str`; an `int` key on a
value whose tag is not List is a silent no-op, and a `str` key on a value
whose tag is not Map is a silent no-op. -/
theorem C10_setitem_key_dispatch (d v : Dyn) :
    (∀ key, d.setItem key v = .error .notImplementedKey ↔ key = .other)
    ∧ (∀ i : Int, d.tag ≠ "L" → d.setItem (.int i) v = .ok d)
    ∧ (∀ s : String, d.tag ≠ "M" → d.setItem (.str s) v = .ok d) := by
  refine ⟨?_, ?_, ?_⟩
  · intro key
    constructor
    · intro h
      match key with
      | .other => rfl
      | .int i =>
        exfalso
        cases d <;> simp only [Dyn.setItem] at h <;> split at h <;>
          first
            | (split_ifs at h <;> simp_all)
            | simp at h
      | .str s =>
        exfalso
        cases d <;> simp only [Dyn.setItem] at h <;> split at h <;> simp at h
    · intro h
      subst h
      rfl
  · intro i hL
    simp only [Dyn.setItem]
    rw [if_neg (by simp [Dyn.is_list, hL])]
  · intro s hM
    simp only [Dyn.setItem]
    rw [if_neg (by simp [Dyn.is_map, hM])]

/-- **C10** (witness): on a String-tagged scalar, a non-int non-str key
raises the unsupported-key error, while int and str keys are silent
no-ops. -/
theorem C10_setitem_key_dispatch_witness :
    Dyn.setItem (.scalarS "S" "q") .other (.scalarS "S" "y") = .error .notImplementedKey
    ∧ Dyn.setItem (.scalarS "S" "q") (.int 0) (.scalarS "S" "y") = .ok (.scalarS "S" "q")
    ∧ Dyn.setItem (.scalarS "S" "q") (.str "k") (.scalarS "S" "y") = .ok (.scalarS "S" "q") :=
  ⟨((C10_setitem_key_dispatch _ _).1 .other).mpr rfl,
   (C10_setitem_key_dispatch _ _).2.1 0 (by decide),
   (C10_setitem_key_dispatch _ _).2.2 "k" (by decide)⟩

/-- `to_json` pairs the tag with the raw payload and `__init__` on that dict
re-wraps it, which is exactly the copy path. -/
theorem dynamoTypeOfDict_to_json (v : Dyn) : dynamoTypeOfDict v.to_json = copyD v := by
  match v with
  | .scalarS t s =>
    simp only [Dyn.to_json, dynamoTypeOfDict, copyD]
    by_cases h1 : t = "L"
    · simp [h1]
    · by_cases h2 : t = "M" <;> simp [h1, h2]
  | .scalarB t b =>
    simp only [Dyn.to_json, dynamoTypeOfDict, copyD]
    by_cases h1 : t = "L"
    · simp [h1]
    · by_cases h2 : t = "M" <;> simp [h1, h2]
  | .setV t xs =>
    simp only [Dyn.to_json, dynamoTypeOfDict, copyD]
    by_cases h1 : t = "L"
    · simp [h1]
    · by_cases h2 : t = "M" <;> simp [h1, h2]
  | .listV t xs =>
    simp only [Dyn.to_json, dynamoTypeOfDict, copyD]
  | .mapV t xs =>
    simp only [Dyn.to_json, dynamoTypeOfDict, copyD]

/-- **C2**: for every well-formed Typed Value, deserializing the
serialization (constructing a `DynamoType` from the single-key dict returned
by `to_json`) yields a value structurally equal (tag and value) to the
original. -/
theorem C2_roundtrip (v : Dyn) (h : v.wf = true) :
    dynamoTypeOfDict v.to_json = some v := by
  rw [dynamoTypeOfDict_to_json]
  exact copyD_of_wf v h

/-- **C2** (witness): round-trip of a nested Map/List/scalar value. -/
theorem C2_roundtrip_witness :
    Dyn.wf (.mapV "M" [("a", .listV "L" [.scalarS "N" "1"]), ("b", .scalarB "BOOL" true)]) = true
    ∧ dynamoTypeOfDict
        (Dyn.to_json (.mapV "M" [("a", .listV "L" [.scalarS "N" "1"]), ("b", .scalarB "BOOL" true)])) =
      some (.mapV "M" [("a", .listV "L" [.scalarS "N" "1"]), ("b", .scalarB "BOOL" true)]) :=
  ⟨rfl, C2_roundtrip _ rfl⟩

/-- `sizeL` is `mapM sizeD`. -/
theorem sizeL_eq_mapM : ∀ xs : List Dyn, sizeL xs = xs.mapM sizeD
  | [] => rfl
  | d :: ds => by
    rw [sizeL, sizeL_eq_mapM ds, List.mapM_cons]

/-- `mapM` over `Option` respects pointwise equal functions. -/
theorem optionMapM_congr {α β : Type} (f g : α → Option β) (h : ∀ x, f x = g x) :
    ∀ xs : List α, xs.mapM f = xs.mapM g
  | [] => rfl
  | x :: xs => by
    rw [List.mapM_cons, List.mapM_cons, h x, optionMapM_congr f g h xs]

/-- On well-formed children, `sizeE` is the sum-shaped `mapM` of
`bytesize key + size value`. -/
theorem sizeE_eq_mapM : ∀ xs : List (String × Dyn), (∀ kv ∈ xs, Dyn.wf kv.2 = true) →
    sizeE xs = xs.mapM (fun kv => (sizeD kv.2).map (fun n => bytesize kv.1 + n))
  | [], _ => rfl
  | (k, v) :: ds, h => by
    have hv : Dyn.wf v = true := h (k, v) (List.mem_cons_self _ _)
    have hds : ∀ kv ∈ ds, Dyn.wf kv.2 = true := fun kv hkv => h kv (List.mem_cons_of_mem _ hkv)
    rw [sizeE, copyD_of_wf v hv, List.mapM_cons, sizeE_eq_mapM ds hds]
    cases hsv : sizeD v <;> simp [hsv]

/-- **C1**: `size()` satisfies the spec's equations: a Number-tagged value has
the length of its decimal text; a set sums the sizes of its members, each
wrapped individually at the set's element tag (`type[0]`); a List sums its
children's sizes; a Map sums byte length of key text plus size of value over
its entries; a boolean raw value (under the remaining tags) has size exactly
1; any other raw text has its byte length.  The final conjuncts are the
spec's concrete examples. -/
theorem C1_size_equations :
    (∀ s, sizeD (.scalarS "N" s) = some s.length)
    ∧ (∀ t xs, (t = "SS" ∨ t = "NS" ∨ t = "BS") →
        sizeD (.setV t xs) =
          (xs.mapM (fun m => sizeD (.scalarS (t.take 1) m))).map List.sum)
    ∧ (∀ xs, sizeD (.listV "L" xs) = (xs.mapM sizeD).map List.sum)
    ∧ (∀ xs, (∀ kv ∈ xs, Dyn.wf kv.2 = true) →
        sizeD (.mapV "M" xs) =
          (xs.mapM (fun kv => (sizeD kv.2).map (fun n => bytesize kv.1 + n))).map List.sum)
    ∧ (∀ t b, t ≠ "N" → ¬(t = "SS" ∨ t = "NS" ∨ t = "BS") → t ≠ "L" → t ≠ "M" →
        sizeD (.scalarB t b) = some 1)
    ∧ (∀ t s, t ≠ "N" → ¬(t = "SS" ∨ t = "NS" ∨ t = "BS") → t ≠ "L" → t ≠ "M" →
        sizeD (.scalarS t s) = some (bytesize s))
    ∧ sizeD (.scalarS "N" "12345") = some 5
    ∧ sizeD (.scalarB "BOOL" true) = some 1
    ∧ sizeD (.mapV "M" [("a", .scalarS "S" "bb")]) = some (bytesize "a" + 2) := by
  refine ⟨fun s => rfl, ?_, ?_, ?_, ?_, ?_, rfl, rfl, rfl⟩
  · intro t xs h
    rcases h with rfl | rfl | rfl
    · calc sizeD (.setV "SS" xs)
          = (xs.mapM (fun m => wrappedScalarSize ("SS".take 1) m)).map List.sum := rfl
        _ = (xs.mapM (fun m => sizeD (.scalarS ("SS".take 1) m))).map List.sum :=
            congrArg (Option.map List.sum) (optionMapM_congr _ _ (fun m => rfl) xs)
    · calc sizeD (.setV "NS" xs)
          = (xs.mapM (fun m => wrappedScalarSize ("NS".take 1) m)).map List.sum := rfl
        _ = (xs.mapM (fun m => sizeD (.scalarS ("NS".take 1) m))).map List.sum :=
            congrArg (Option.map List.sum) (optionMapM_congr _ _ (fun m => rfl) xs)
    · calc sizeD (.setV "BS" xs)
          = (xs.mapM (fun m => wrappedScalarSize ("BS".take 1) m)).map List.sum := rfl
        _ = (xs.mapM (fun m => sizeD (.scalarS ("BS".take 1) m))).map List.sum :=
            congrArg (Option.map List.sum) (optionMapM_congr _ _ (fun m => rfl) xs)
  · intro xs
    rw [show sizeD (.listV "L" xs) = (sizeL xs).map List.sum from rfl, sizeL_eq_mapM]
  · intro xs h
    rw [show sizeD (.mapV "M" xs) = (sizeE xs).map List.sum from rfl, sizeE_eq_mapM xs h]
  · intro t b h1 h2 h3 h4
    simp only [sizeD]
    rw [if_neg h1, if_neg h2, if_neg h3, if_neg h4]
  · intro t s h1 h2 h3 h4
    simp only [sizeD]
    rw [if_neg h1, if_neg h2, if_neg h3, if_neg h4]

/-- **C1** (witness): the set equation applied to NS {"12","345"} (sizes sum
to 5) and the map equation applied to {"a": String("bb")} (bytesize "a" + 2 =
3). -/
theorem C1_size_equations_witness :
    sizeD (.setV "NS" ["12", "345"]) = some 5
    ∧ sizeD (.mapV "M" [("a", .scalarS "S" "bb")]) = some 3 := by
  constructor
  · rw [C1_size_equations.2.1 "NS" ["12", "345"] (by simp)]
    rfl
  · rw [C1_size_equations.2.2.2.1 [("a", .scalarS "S" "bb")]
      (by intro kv hkv; rw [List.mem_singleton] at hkv; subst hkv; rfl)]
    rfl

/-- **C3** (counterexample): the claim says a Number token is emitted iff the
staged buffer consists solely of decimal digits, and that a buffer like
`"1abc"` (which matches the bare-identifier grammar) emits an Attribute
token.  The source's `is_numeric` regex `"[0-9]+"` is only anchored at the
start (`re.match`, no `$`), so `"1abc"` is classified as a Number token even
though it is not solely digits. -/
theorem C3_staged_classification_counterexample :
    process_staged_characters ⟨[], "1abc"⟩ = .ok ⟨[⟨.number, "1abc"⟩], ""⟩
    ∧ ("1abc".data.all Char.isDigit) = false
    ∧ is_expression_attribute "1abc" = true :=
  ⟨rfl, rfl, rfl⟩

/-- **C3** (amended): for every finalized non-empty staged buffer that does
not start with `#`, a Number token is emitted iff the buffer *begins with* a
decimal digit; otherwise, when the buffer matches the bare-identifier grammar
`^[a-zA-Z0-9][a-zA-Z0-9_]*$`, an Attribute token is emitted. -/
theorem C3_staged_classification_amended (ts : List Token) (s : String) (c : Char)
    (cs : List Char) (hs : s.data = c :: cs) (hnh : c ≠ '#') :
    (process_staged_characters ⟨ts, s⟩ = .ok ⟨ts ++ [⟨.number, s⟩], ""⟩ ↔ c.isDigit = true)
    ∧ (c.isDigit = false → is_expression_attribute s = true →
        process_staged_characters ⟨ts, s⟩ = .ok ⟨ts ++ [⟨.attribute, s⟩], ""⟩) := by
  have hne : ¬ (String.length s = 0) := by
    show ¬ (s.data.length = 0)
    rw [hs]
    simp
  have hhash : pyStartsWith s "#" = false := by
    rw [pyStartsWith, hs]
    simp [charsLead, eq_comm, hnh]
  have hnum : is_numeric s = c.isDigit := by
    unfold is_numeric
    rw [hs]
  have hproc : process_staged_characters ⟨ts, s⟩ =
      (if is_numeric s = true then .ok (addTokenFromStage ⟨ts, s⟩ .number)
       else if is_expression_attribute s = true then .ok (addTokenFromStage ⟨ts, s⟩ .attribute)
       else if is_expression_attribute_value s = true then
         .ok (addTokenFromStage ⟨ts, s⟩ .attributeValue)
       else raiseUnexpectedToken ⟨ts, s⟩) := by
    rw [process_staged_characters]
    rw [if_neg hne, if_neg (by simp [hhash])]
  constructor
  · constructor
    · intro h
      by_contra hd
      rw [Bool.not_eq_true] at hd
      rw [hproc, hnum, hd] at h
      rw [if_neg (by simp)] at h
      split at h <;> [skip; split at h] <;>
        simp [addTokenFromStage, raiseUnexpectedToken] at h
    · intro hd
      rw [hproc, hnum, hd, if_pos rfl]
      rfl
  · intro hd hattr
    rw [hproc, hnum, hd]
    rw [if_neg (by simp), if_pos hattr]
    rfl

/-- **C3** (witness): the amended theorem applied to the all-digit buffer
`"123"` (Number) and the letter-initial buffer `"a1"` (Attribute). -/
theorem C3_staged_classification_witness :
    process_staged_characters ⟨[], "123"⟩ = .ok ⟨[⟨.number, "123"⟩], ""⟩
    ∧ process_staged_characters ⟨[], "a1"⟩ = .ok ⟨[⟨.attribute, "a1"⟩], ""⟩ :=
  ⟨((C3_staged_classification_amended [] "123" '1' ['2', '3'] rfl (by decide)).1).mpr rfl,
   (C3_staged_classification_amended [] "a1" 'a' ['1'] rfl (by decide)).2 rfl rfl⟩

mutual

theorem filterD_eq_specFilter : ∀ d proj, wfFilter d = true →
    filterD d proj = some (specFilter d proj)
  | .mapV t xs, proj, h => by
    simp only [filterD, specFilter]
    by_cases ht : t = "M"
    · rw [if_pos ht, if_pos ht,
        filterEntries_eq_spec xs proj (by simpa [wfFilter] using h)]
      rfl
    · rw [if_neg ht, if_neg ht]
  | .scalarS t s, proj, h => by
    have ht : t ≠ "M" := by simpa [wfFilter] using h
    simp only [filterD, specFilter]
    rw [if_neg ht]
  | .scalarB t b, proj, h => by
    have ht : t ≠ "M" := by simpa [wfFilter] using h
    simp only [filterD, specFilter]
    rw [if_neg ht]
  | .setV t xs, proj, h => by
    have ht : t ≠ "M" := by simpa [wfFilter] using h
    simp only [filterD, specFilter]
    rw [if_neg ht]
  | .listV t xs, proj, h => by
    have ht : t ≠ "M" := by simpa [wfFilter] using h
    simp only [filterD, specFilter]
    rw [if_neg ht]

theorem filterEntries_eq_spec : ∀ xs proj, wfFilterE xs = true →
    filterEntries xs proj ((proj.filter (fun e => e.data.contains '.')).map beforeFirstDot) =
      some (specFilterEntries xs proj)
  | [], proj, _ => rfl
  | (k, v) :: rest, proj, h => by
    have hv : wfFilter v = true := by
      rw [wfFilterE, Bool.and_eq_true] at h
      exact h.1
    have hrest : wfFilterE rest = true := by
      rw [wfFilterE, Bool.and_eq_true] at h
      exact h.2
    simp only [filterEntries, specFilterEntries]
    by_cases hn : k ∈ (proj.filter (fun e => e.data.contains '.')).map beforeFirstDot
    · rw [if_neg (fun hcon => hcon.2 hn), if_pos hn, if_pos hn,
        filterD_eq_specFilter v (relevantExpressions proj k) hv,
        filterEntries_eq_spec rest proj hrest]
      rfl
    · by_cases hp : k ∈ proj
      · rw [if_neg (fun hcon => hcon.1 hp), if_neg hn, if_neg hn, if_pos hp,
          filterEntries_eq_spec rest proj hrest]
        rfl
      · rw [if_pos ⟨hp, hn⟩, if_neg hn, if_neg hp,
          filterEntries_eq_spec rest proj hrest]

end

/-- **C6**: on every well-formed Map-tagged value, `filter` computes exactly
the spec-side projection `specFilter`: it drops precisely the top-level keys
that appear neither verbatim in the expression list nor as the portion before
the first `.` of some dotted expression, and recursively filters nested
roots with the tail paths of the expressions sharing that prefix. -/
theorem C6_filter_projection (d : Dyn) (proj : List String) (h : wfFilter d = true) :
    filterD d proj = some (specFilter d proj) :=
  filterD_eq_specFilter d proj h

/-- **C6** (witness): Map{"a":.., "b":{"c":..,"d":..}} filtered by
["a", "b.c"] keeps "a" and "b.c" and drops "b.d". -/
theorem C6_filter_projection_witness :
    filterD (.mapV "M" [("a", .scalarS "S" "1"),
        ("b", .mapV "M" [("c", .scalarS "N" "2"), ("d", .scalarS "N" "3")])]) ["a", "b.c"] =
      some (.mapV "M" [("a", .scalarS "S" "1"), ("b", .mapV "M" [("c", .scalarS "N" "2")])]) := by
  rw [C6_filter_projection (.mapV "M" [("a", .scalarS "S" "1"),
    ("b", .mapV "M" [("c", .scalarS "N" "2"), ("d", .scalarS "N" "3")])]) ["a", "b.c"] rfl]
  rfl
